import Mathlib

/-!
Verification of the Render-webhook → Discord notifier worker (`src/app.ts`).

The worker is a Cloudflare Worker: a `fetch` request handler that validates
an inbound webhook (path, method, configuration, body, signature, JSON),
acknowledges it, and schedules an asynchronous pipeline (`handleWebhook`)
that fetches supplementary data from the Render API and posts a formatted
message to a Discord channel.

This file shallowly embeds the worker's pure logic in Lean:
* JavaScript truthiness on the optional fields involved is made explicit
  (`optStrTruthy`, `optIntTruthy`, `optBoolTruthy`, `jsOr`).
* External effects (the `standardwebhooks` signature verifier, `JSON.parse`,
  the two Render API calls, the Discord call, and the host's `Date` /
  `toLocaleString` timestamp rendering) are modelled as oracle outcomes or
  function parameters; everything the repository itself computes is embedded
  directly.
* The string literals of `src/app.ts` are stored in the repository as UTF-8
  text that was mis-decoded as Mac-Roman (e.g. the bytes of "—" U+2014 appear
  as "‚Äî", those of "❌" U+274C as "‚ùå"); this file uses the decoded
  characters, which are the ones the claims and the spec refer to.
-/

namespace WebhookBot

/-- JS truthiness of a possibly-absent string: `undefined`/`null` and `""`
are falsy, every other string is truthy. -/
def optStrTruthy : Option String → Bool
  | some s => !s.isEmpty
  | none => false

/-- JS truthiness of a possibly-absent number: absent and `0` are falsy. -/
def optIntTruthy : Option Int → Bool
  | some n => n != 0
  | none => false

/-- JS truthiness of a possibly-absent boolean: only `true` is truthy. -/
def optBoolTruthy : Option Bool → Bool
  | some b => b
  | none => false

/-- JS `a || b` on possibly-absent strings: yields `a` when `a` is truthy,
otherwise `b` (which may itself be absent). -/
def jsOr (a b : Option String) : Option String :=
  if optStrTruthy a then a else b

/-- JS `String.prototype.trim`: strip whitespace from both ends.  Defined
over the character list so that it reduces inside the kernel (the library's
`String.trim` is built on substring byte positions, which do not). -/
def jsTrim (s : String) : String :=
  String.mk (((s.data.dropWhile Char.isWhitespace).reverse.dropWhile Char.isWhitespace).reverse)

/-- The `FailureReason` shape of a `server_failed` event
(`event.details.reason`): loosely-typed in the source, with every field
optional. -/
structure FailureReason where
  nonZeroExit : Option Int := none
  oomKilled : Option Bool := none
  timedOutSeconds : Option Int := none
  timedOutReason : Option String := none
  unhealthy : Option String := none
deriving Repr, DecidableEq

/-- `formatFailureReason` (src/app.ts lines 202-217).  The source guards each
branch with JS truthiness via optional chaining (`failureReason?.field`); a
`null`/absent reason therefore skips every branch and reaches the default,
which the top-level `none` case mirrors. -/
def formatFailureReason : Option FailureReason → String
  | none => "Failed for unknown reason"
  | some r =>
    if optIntTruthy r.nonZeroExit then
      "Exited with status " ++ toString (r.nonZeroExit.getD 0)
    else if optBoolTruthy r.oomKilled then
      "Out of Memory"
    else if optIntTruthy r.timedOutSeconds then
      jsTrim ("Timed out " ++ r.timedOutReason.getD "")
    else if optStrTruthy r.unhealthy then
      r.unhealthy.getD ""
    else
      "Failed for unknown reason"

/-- JS `value.split(sep)` for a one-character separator, over character
lists (structural recursion, so it reduces inside the kernel; the library's
`String.splitOn` does not).  `"".split(sep)` is `[""]`, and adjacent
separators yield empty words, as in JS. -/
def splitOnChar (sep : Char) : List Char → List (List Char)
  | [] => [[]]
  | c :: rest =>
    if c = sep then
      [] :: splitOnChar sep rest
    else
      match splitOnChar sep rest with
      | [] => [[c]]
      | w :: ws => (c :: w) :: ws

/-- JS `words.join(sep)` over character lists. -/
def joinWith (sep : List Char) : List (List Char) → List Char
  | [] => []
  | [w] => w
  | w :: ws => w ++ sep ++ joinWith sep ws

/-- `word.charAt(0).toUpperCase() + word.slice(1)` over a character list:
the empty word stays empty, as in JS where `"".charAt(0)` is `""`. -/
def capFirstChars : List Char → List Char
  | [] => []
  | c :: cs => c.toUpper :: cs

/-- `word.charAt(0).toUpperCase() + word.slice(1)` on a string. -/
def capitalizeFirst (w : String) : String :=
  String.mk (capFirstChars w.data)

/-- `humanizeEventType` (src/app.ts lines 280-285): split on `"_"`,
capitalize each word, join with spaces. -/
def humanizeEventType (value : String) : String :=
  String.mk (joinWith [' '] ((splitOnChar '_' value.data).map capFirstChars))

/-- `humanizeStatus` (src/app.ts lines 287-289): capitalize the first
character of the status string. -/
def humanizeStatus (value : String) : String :=
  capitalizeFirst value

/-- `EventPresentation` (src/app.ts lines 291-295). -/
structure EventPresentation where
  label : String
  emoji : String
  color : Nat
deriving Repr, DecidableEq

/-- The `data` object of a webhook payload (`./render`'s `WebhookPayload`):
`{ id, serviceId, serviceName?, status? }`. -/
structure WebhookData where
  id : String := ""
  serviceId : String := ""
  serviceName : Option String := none
  status : Option String := none
deriving Repr, DecidableEq

/-- A JS `string | number` timestamp value. -/
inductive JSTimestamp where
  | str (s : String)
  | num (n : Int)
deriving Repr, DecidableEq

/-- A webhook payload `{ type, timestamp, data }`. The timestamp is wrapped
in `Option` because the source guards it defensively
(`payload.timestamp?.toString?.()`). -/
structure WebhookPayload where
  type : String
  timestamp : Option JSTimestamp := none
  data : WebhookData := {}
deriving Repr, DecidableEq

/-- The event types of the `switch` whose presentation is ❌ / `0xef4444`. -/
def failureTypes : List String :=
  ["server_failed", "image_pull_failed", "key_value_unhealthy",
   "pipeline_minutes_exhausted", "server_hardware_failure"]

/-- The event types of the `switch` whose presentation is ⚠️ / `0xf59e0b`. -/
def warningTypes : List String :=
  ["commit_ignored", "maintenance_mode_enabled", "maintenance_mode_uri_updated"]

/-- The event types of the `switch` whose presentation is ⏳ / `0x94a3b8`. -/
def startedTypes : List String :=
  ["autoscaling_started", "build_started", "deploy_started",
   "cron_job_run_started", "job_run_started", "maintenance_started",
   "zero_downtime_redeploy_started"]

/-- The event types of the `switch` whose presentation is ✅ / `0x22c55e`. -/
def endedTypes : List String :=
  ["autoscaling_ended", "build_ended", "deploy_ended", "cron_job_run_ended",
   "job_run_ended", "maintenance_ended", "zero_downtime_redeploy_ended",
   "server_available", "service_resumed"]

/-- Every event type with its own `case` in the `switch` of
`getEventPresentation`. -/
def knownEventTypes : List String :=
  failureTypes ++ warningTypes ++ startedTypes ++ endedTypes ++
    ["server_restarted", "service_suspended"]

/-- The `switch (eventType)` of `getEventPresentation`
(src/app.ts lines 313-348), reached when no status override fires. -/
def eventTypeTable (eventType : String) : EventPresentation :=
  if eventType ∈ failureTypes then
    ⟨humanizeEventType eventType, "❌", 0xef4444⟩
  else if eventType ∈ warningTypes then
    ⟨humanizeEventType eventType, "⚠️", 0xf59e0b⟩
  else if eventType ∈ startedTypes then
    ⟨humanizeEventType eventType, "⏳", 0x94a3b8⟩
  else if eventType ∈ endedTypes then
    ⟨humanizeEventType eventType, "✅", 0x22c55e⟩
  else if eventType = "server_restarted" then
    ⟨humanizeEventType eventType, "🔄", 0x3b82f6⟩
  else if eventType = "service_suspended" then
    ⟨humanizeEventType eventType, "⏸️", 0xf59e0b⟩
  else
    ⟨humanizeEventType eventType, "ℹ️", 0x94a3b8⟩

/-- `getEventPresentation` (src/app.ts lines 297-349): a truthy
`payload.data.status` equal to `failed`, `canceled` or `succeeded` overrides
the presentation; otherwise control falls through to the event-type
`switch` (`eventTypeTable`, inline in the source). -/
def getEventPresentation (payload : WebhookPayload) : EventPresentation :=
  let eventType := payload.type
  let status := payload.data.status
  if optStrTruthy status then
    let s := status.getD ""
    if s = "failed" then
      ⟨humanizeEventType eventType ++ " Failed", "❌", 0xef4444⟩
    else if s = "canceled" then
      ⟨humanizeEventType eventType ++ " Canceled", "⚠️", 0xf59e0b⟩
    else if s = "succeeded" then
      ⟨humanizeEventType eventType ++ " Succeeded", "✅", 0x22c55e⟩
    else
      eventTypeTable eventType
  else
    eventTypeTable eventType

example : humanizeEventType "deploy_started" = "Deploy Started" := by decide
example : getEventPresentation { type := "deploy_started" } = ⟨"Deploy Started", "⏳", 0x94a3b8⟩ := by decide
example : getEventPresentation { type := "deploy_ended", data := { status := some "failed" } } =
    ⟨"Deploy Ended Failed", "❌", 0xef4444⟩ := by decide
example : getEventPresentation { type := "weird_thing" } = ⟨"Weird Thing", "ℹ️", 0x94a3b8⟩ := by decide

/-- A fetched Render service (`./render`'s `RenderService`): the fields the
worker reads. -/
structure RenderService where
  name : String := ""
  dashboardUrl : String := ""
deriving Repr, DecidableEq

/-- The nested `deploy` object of an event's details. -/
structure Deploy where
  id : String := ""
deriving Repr, DecidableEq

/-- A trigger entry: one key of the loosely-typed trigger map, with the
`String(value)` rendering of its value, or `none` when the value is
`undefined` (the one case `formatTrigger` filters out). -/
structure TriggerEntry where
  key : String
  value : Option String
deriving Repr, DecidableEq

/-- The `details` object of a fetched Render event.  The trigger map is
modelled as its `Object.entries` list in insertion order. -/
structure EventDetails where
  reason : Option FailureReason := none
  deployId : Option String := none
  deploy : Option Deploy := none
  trigger : Option (List TriggerEntry) := none
deriving Repr, DecidableEq

/-- A fetched Render event (`./render`'s `RenderEvent`): the worker only
reads `details`. -/
structure RenderEvent where
  details : Option EventDetails := none
deriving Repr, DecidableEq

/-- `formatEventTitle` (src/app.ts lines 177-188): the display name is the
first JS-truthy value of `payload.data.serviceName`, `service?.name`,
`payload.data.serviceId`, with `"Render Service"` as the final fallback;
the title is `"{emoji} {name} — {label}"`. -/
def formatEventTitle (payload : WebhookPayload) (service : Option RenderService)
    (presentation : EventPresentation) : String :=
  let name :=
    (jsOr payload.data.serviceName
      (jsOr (service.map RenderService.name)
        (jsOr (some payload.data.serviceId) (some "Render Service")))).getD ""
  presentation.emoji ++ " " ++ name ++ " — " ++ presentation.label

/-- `formatEventDescription` (src/app.ts lines 190-200): `server_failed`
delegates to `formatFailureReason` on `event?.details?.reason`; every other
type yields `""`. -/
def formatEventDescription (payload : WebhookPayload) (event : Option RenderEvent) : String :=
  if payload.type = "server_failed" then
    formatFailureReason ((event.bind RenderEvent.details).bind EventDetails.reason)
  else
    ""

/-- `truncate` (src/app.ts lines 363-368): strings longer than `maxLength`
are cut to `maxLength - 3` characters plus `"..."` (the JS
`text.slice(0, maxLength - 3)` is character-list `take` in this model). -/
def truncate (text : String) (maxLength : Nat) : String :=
  if text.length ≤ maxLength then
    text
  else
    String.mk (text.data.take (maxLength - 3)) ++ "..."

/-- `formatTrigger` (src/app.ts lines 273-278): drop `undefined` values,
render each entry as `key=value`, comma-join, truncate to 1024. -/
def formatTrigger (trigger : List TriggerEntry) : String :=
  truncate
    (String.mk (joinWith [',', ' ']
      ((trigger.filter (fun e => e.value.isSome)).map
        (fun e => (e.key ++ "=" ++ e.value.getD "").data))))
    1024

/-- A Discord embed field `{name, value, inline}`. -/
structure Field where
  name : String
  value : String
  inline : Bool
deriving Repr, DecidableEq

/-- The timestamp string `buildEventFields` starts from:
`typeof payload.timestamp === "string" ? payload.timestamp :
payload.timestamp?.toString?.() || ""`. -/
def timestampText (payload : WebhookPayload) : String :=
  match payload.timestamp with
  | some (.str s) => s
  | some (.num n) => toString n
  | none => ""

/-- `buildEventFields` (src/app.ts lines 219-257).  `fmtTs` stands for
`formatTimestamp` (src/app.ts lines 259-271), whose body is the host
runtime's `Date` parsing and `toLocaleString` rendering (British English,
Europe/London, medium date + short time + zone name, raw string on parse
failure) and is therefore a parameter of the model rather than an embedded
definition.  The source's `service` parameter is never read in the body. -/
def buildEventFields (fmtTs : String → String) (payload : WebhookPayload)
    (_service : Option RenderService) (event : Option RenderEvent) : List Field :=
  let timestamp := timestampText payload
  let timeFields : List Field :=
    if timestamp ≠ "" then [⟨"Time", fmtTs timestamp, false⟩] else []
  let status := payload.data.status
  let statusFields : List Field :=
    if optStrTruthy status then [⟨"Status", humanizeStatus (status.getD ""), true⟩] else []
  let details := event.bind RenderEvent.details
  let deployId := jsOr (details.bind EventDetails.deployId)
    ((details.bind EventDetails.deploy).map Deploy.id)
  let deployFields : List Field :=
    if optStrTruthy deployId then [⟨"Deploy ID", deployId.getD "", false⟩] else []
  let triggerFields : List Field :=
    match details.bind EventDetails.trigger with
    | some trig =>
      let triggerText := formatTrigger trig
      if triggerText ≠ "" then [⟨"Trigger", triggerText, false⟩] else []
    | none => []
  let reasonFields : List Field :=
    if payload.type = "server_failed" then
      [⟨"Failure Reason", formatFailureReason (details.bind EventDetails.reason), false⟩]
    else []
  timeFields ++ statusFields ++ deployFields ++ triggerFields ++ reasonFields

/-- The worker's environment bindings (`Env` in src/app.ts).  A missing
binding and an empty string are both JS-falsy to the `!env.X` checks, so a
missing required value is modelled as `""`.  `RENDER_API_URL` is the one
optional binding. -/
structure Env where
  RENDER_WEBHOOK_SECRET : String := ""
  RENDER_API_URL : Option String := none
  RENDER_API_KEY : String := ""
  DISCORD_TOKEN : String := ""
  DISCORD_CHANNEL_ID : String := ""
deriving Repr, DecidableEq

/-- `getMissingEnvVars` (src/app.ts lines 76-83): the names of the four
required bindings that are falsy, in check order. -/
def getMissingEnvVars (env : Env) : List String :=
  (if env.RENDER_WEBHOOK_SECRET = "" then ["RENDER_WEBHOOK_SECRET"] else []) ++
  (if env.RENDER_API_KEY = "" then ["RENDER_API_KEY"] else []) ++
  (if env.DISCORD_TOKEN = "" then ["DISCORD_TOKEN"] else []) ++
  (if env.DISCORD_CHANNEL_ID = "" then ["DISCORD_CHANNEL_ID"] else [])

/-- `getRenderApiUrl` (src/app.ts lines 414-416). -/
def DEFAULT_RENDER_API_URL : String := "https://api.render.com/v1"

/-- `env.RENDER_API_URL || DEFAULT_RENDER_API_URL`. -/
def getRenderApiUrl (env : Env) : String :=
  (jsOr env.RENDER_API_URL (some DEFAULT_RENDER_API_URL)).getD ""

/-- Outcome of `validateWebhook` (the external `standardwebhooks`
verifier): success, a thrown `WebhookVerificationError`, or any other
thrown error. -/
inductive VerifyOutcome where
  | ok
  | verificationError
  | otherError
deriving Repr, DecidableEq

/-- An inbound request as the handler observes it.  `bodyRead = none`
models `request.text()` throwing; `verifyResult` and `parseResult` are the
oracle outcomes of the external signature verifier and of `JSON.parse` on
this request's raw body. -/
structure InboundRequest where
  pathname : String
  method : String
  bodyRead : Option String := none
  verifyResult : VerifyOutcome := .ok
  parseResult : Option WebhookPayload := none
deriving Repr, DecidableEq

/-- An HTTP response: status, body, and whether the
`Content-Type: application/json` header was set. -/
structure HttpResponse where
  status : Nat
  body : String
  contentTypeJson : Bool := false
deriving Repr, DecidableEq

/-- What the `fetch` handler produced: the immediate response, and the
payload handed to `ctx.waitUntil(handleWebhook(payload, env))` when the
pipeline was scheduled (`none` when it was not). -/
structure HandlerResult where
  response : HttpResponse
  dispatched : Option WebhookPayload
deriving Repr, DecidableEq

/-- The `fetch` request handler (src/app.ts lines 19-74): path check,
method check, configuration check, body read, signature verification,
JSON parse, then schedule the pipeline and acknowledge with `200 {}`. -/
def fetchHandler (request : InboundRequest) (env : Env) : HandlerResult :=
  if request.pathname ≠ "/webhook" then
    ⟨⟨404, "Not Found", false⟩, none⟩
  else if request.method ≠ "POST" then
    ⟨⟨405, "Method Not Allowed", false⟩, none⟩
  else if (getMissingEnvVars env).length > 0 then
    ⟨⟨500, "", false⟩, none⟩
  else
    match request.bodyRead with
    | none => ⟨⟨400, "", false⟩, none⟩
    | some _ =>
      match request.verifyResult with
      | .verificationError => ⟨⟨400, "", false⟩, none⟩
      | .otherError => ⟨⟨500, "", false⟩, none⟩
      | .ok =>
        match request.parseResult with
        | none => ⟨⟨400, "", false⟩, none⟩
        | some payload => ⟨⟨200, "{}", true⟩, some payload⟩

/-- The observable steps of the asynchronous pipeline: each awaited call
contributes a start event and a completion event, in program order. -/
inductive Step where
  | fetchServiceStart
  | fetchServiceDone
  | fetchEventStart
  | fetchEventDone
  | notifyStart
  | notifyDone
deriving Repr, DecidableEq, BEq

/-- The index of the first occurrence of a step in a trace. -/
def stepIdx (a : Step) (t : List Step) : Option Nat :=
  t.findIdx? (fun x => x == a)

/-- `a` occurs in the trace strictly before `b` (both must occur). -/
def stepBefore (a b : Step) (t : List Step) : Bool :=
  match stepIdx a t, stepIdx b t with
  | some i, some j => i < j
  | _, _ => false

/-- The two fetches overlap — two network calls in flight at once — exactly
when the event fetch starts before the service fetch has completed. -/
def overlappingFetches (t : List Step) : Bool :=
  stepBefore .fetchEventStart .fetchServiceDone t

/-- What one run of the asynchronous pipeline did: the ordered step trace,
the fetch results after their `catch` blocks, the arguments
`sendEventMessage` was invoked with, and whether that send failed (its
error, too, is caught and only logged). -/
structure PipelineRun where
  trace : List Step
  service : Option RenderService
  event : Option RenderEvent
  notifyArgs : WebhookPayload × Option RenderService × Option RenderEvent
  notifyFailed : Bool
deriving Repr, DecidableEq

/-- `handleWebhook` (src/app.ts lines 94-115) in an explicit exception
monad.  The three oracle arguments are the outcomes of
`fetchServiceInfo`, `fetchEventInfo` and `sendEventMessage` — external
network calls.  Each of the three statements sits in its own `try/catch`
(a `catch` only logs), which the `match`es on the `Except` outcomes mirror;
an uncaught error would surface as `Except.error`.  Each `await` runs to
completion before the next statement starts, so the trace records the six
events in program order. -/
def handleWebhook (payload : WebhookPayload)
    (fetchServiceInfo : Except String RenderService)
    (fetchEventInfo : Except String RenderEvent)
    (sendEventMessage : WebhookPayload → Option RenderService → Option RenderEvent → Except String Unit) :
    Except String PipelineRun :=
  let trace1 := [Step.fetchServiceStart, Step.fetchServiceDone]
  let service : Option RenderService :=
    match fetchServiceInfo with
    | .ok s => some s
    | .error _ => none
  let trace2 := trace1 ++ [Step.fetchEventStart, Step.fetchEventDone]
  let event : Option RenderEvent :=
    match fetchEventInfo with
    | .ok e => some e
    | .error _ => none
  let trace3 := trace2 ++ [Step.notifyStart, Step.notifyDone]
  let notifyFailed : Bool :=
    match sendEventMessage payload service event with
    | .ok _ => false
    | .error _ => true
  Except.ok ⟨trace3, service, event, (payload, service, event), notifyFailed⟩

/-! ## Helper lemmas -/

lemma isEmpty_false_of_ne (s : String) (h : s ≠ "") : s.isEmpty = false := by
  rw [Bool.eq_false_iff]
  intro he
  exact h ((String.isEmpty_iff s).mp he)

lemma optStrTruthy_some_iff (s : String) : optStrTruthy (some s) = true ↔ s ≠ "" := by
  constructor
  · intro h hs
    subst hs
    exact absurd h (by decide)
  · intro h
    simp [optStrTruthy, isEmpty_false_of_ne s h]

lemma optStrTruthy_some_of_ne (s : String) (h : s ≠ "") : optStrTruthy (some s) = true :=
  (optStrTruthy_some_iff s).mpr h

lemma getEventPresentation_eq_table (p : WebhookPayload) (hs : p.data.status = none) :
    getEventPresentation p = eventTypeTable p.type := by
  simp [getEventPresentation, hs, optStrTruthy]

lemma eventTypeTable_failure (et : String) (h : et ∈ failureTypes) :
    eventTypeTable et = ⟨humanizeEventType et, "❌", 0xef4444⟩ := by
  fin_cases h <;> decide

lemma eventTypeTable_warning (et : String) (h : et ∈ warningTypes) :
    eventTypeTable et = ⟨humanizeEventType et, "⚠️", 0xf59e0b⟩ := by
  fin_cases h <;> decide

lemma eventTypeTable_started (et : String) (h : et ∈ startedTypes) :
    eventTypeTable et = ⟨humanizeEventType et, "⏳", 0x94a3b8⟩ := by
  fin_cases h <;> decide

lemma eventTypeTable_ended (et : String) (h : et ∈ endedTypes) :
    eventTypeTable et = ⟨humanizeEventType et, "✅", 0x22c55e⟩ := by
  fin_cases h <;> decide

lemma eventTypeTable_unknown (et : String) (h : et ∉ knownEventTypes) :
    eventTypeTable et = ⟨humanizeEventType et, "ℹ️", 0x94a3b8⟩ := by
  have h1 : et ∉ failureTypes := fun hm => h (by simp [knownEventTypes, List.mem_append, hm])
  have h2 : et ∉ warningTypes := fun hm => h (by simp [knownEventTypes, List.mem_append, hm])
  have h3 : et ∉ startedTypes := fun hm => h (by simp [knownEventTypes, List.mem_append, hm])
  have h4 : et ∉ endedTypes := fun hm => h (by simp [knownEventTypes, List.mem_append, hm])
  have h5 : et ≠ "server_restarted" := fun hm => h (by subst hm; decide)
  have h6 : et ≠ "service_suspended" := fun hm => h (by subst hm; decide)
  unfold eventTypeTable
  rw [if_neg h1, if_neg h2, if_neg h3, if_neg h4, if_neg h5, if_neg h6]

/-! ## Claim theorems -/

/-- **C3** (counterexample).  The claim says a *present* `timedOutSeconds`
fires the timeout branch; the code tests JS truthiness, so the present
value `0` falls through every branch to the default message instead of
producing `"Timed out"`. -/
theorem formatFailureReason_present_timeout_cex :
    formatFailureReason (some { timedOutSeconds := some 0 }) = "Failed for unknown reason" ∧
    formatFailureReason (some { timedOutSeconds := some 0 }) ≠ "Timed out" := by
  decide

/-- **C3** (amended).  `formatFailureReason` branches with fixed precedence
nonZeroExit → oomKilled → timedOutSeconds → unhealthy → default, where each
guard is JS truthiness: a branch fires only on a *truthy* field (a nonzero
exit code, a `true` flag, a nonzero timeout, a nonempty unhealthy string);
exactly one branch fires, and an absent reason yields the default. -/
theorem formatFailureReason_precedence :
    formatFailureReason none = "Failed for unknown reason" ∧
    ∀ r : FailureReason,
      (∀ n : Int, r.nonZeroExit = some n → n ≠ 0 →
        formatFailureReason (some r) = "Exited with status " ++ toString n) ∧
      (optIntTruthy r.nonZeroExit = false → r.oomKilled = some true →
        formatFailureReason (some r) = "Out of Memory") ∧
      (optIntTruthy r.nonZeroExit = false → optBoolTruthy r.oomKilled = false →
        ∀ t : Int, r.timedOutSeconds = some t → t ≠ 0 →
        formatFailureReason (some r) = jsTrim ("Timed out " ++ r.timedOutReason.getD "")) ∧
      (optIntTruthy r.nonZeroExit = false → optBoolTruthy r.oomKilled = false →
        optIntTruthy r.timedOutSeconds = false →
        ∀ u : String, r.unhealthy = some u → u ≠ "" →
        formatFailureReason (some r) = u) ∧
      (optIntTruthy r.nonZeroExit = false → optBoolTruthy r.oomKilled = false →
        optIntTruthy r.timedOutSeconds = false → optStrTruthy r.unhealthy = false →
        formatFailureReason (some r) = "Failed for unknown reason") := by
  refine ⟨rfl, fun r => ⟨?_, ?_, ?_, ?_, ?_⟩⟩
  · intro n hn hnz
    simp [formatFailureReason, hn, optIntTruthy, hnz]
  · intro h1 h2
    simp [formatFailureReason, h1, h2, optBoolTruthy]
  · intro h1 h2 t ht htz
    have h5 : optIntTruthy (some t) = true := by simp [optIntTruthy, htz]
    simp [formatFailureReason, h1, h2, ht, h5]
  · intro h1 h2 h3 u hu hune
    simp [formatFailureReason, h1, h2, h3, hu, optStrTruthy, isEmpty_false_of_ne u hune]
  · intro h1 h2 h3 h4
    simp [formatFailureReason, h1, h2, h3, h4]

/-- **C3** (witness): a nonzero exit code of 137 formats as claimed. -/
theorem formatFailureReason_precedence_witness :
    formatFailureReason (some { nonZeroExit := some 137 }) = "Exited with status " ++ toString (137 : Int) :=
  (formatFailureReason_precedence.2 { nonZeroExit := some 137 }).1 137 rfl (by decide)

/-- **C2**: with an absent status, `getEventPresentation` reproduces the
closed event-type table (failure ❌/0xef4444, warning ⚠️/0xf59e0b, started
⏳/0x94a3b8, ended/success ✅/0x22c55e, server_restarted 🔄/0x3b82f6,
service_suspended ⏸️/0xf59e0b, unknown ℹ️/0x94a3b8) with the humanized
event type as label; a status of `failed`/`canceled`/`succeeded` overrides
it with ❌/red, ⚠️/amber, ✅/green and the suffixed label; and humanizing
`deploy_started` yields `Deploy Started` with ⏳/0x94a3b8. -/
theorem getEventPresentation_table_spec :
    (∀ p : WebhookPayload, p.data.status = none →
      (p.type ∈ failureTypes →
        getEventPresentation p = ⟨humanizeEventType p.type, "❌", 0xef4444⟩) ∧
      (p.type ∈ warningTypes →
        getEventPresentation p = ⟨humanizeEventType p.type, "⚠️", 0xf59e0b⟩) ∧
      (p.type ∈ startedTypes →
        getEventPresentation p = ⟨humanizeEventType p.type, "⏳", 0x94a3b8⟩) ∧
      (p.type ∈ endedTypes →
        getEventPresentation p = ⟨humanizeEventType p.type, "✅", 0x22c55e⟩) ∧
      (p.type = "server_restarted" →
        getEventPresentation p = ⟨humanizeEventType p.type, "🔄", 0x3b82f6⟩) ∧
      (p.type = "service_suspended" →
        getEventPresentation p = ⟨humanizeEventType p.type, "⏸️", 0xf59e0b⟩) ∧
      (p.type ∉ knownEventTypes →
        getEventPresentation p = ⟨humanizeEventType p.type, "ℹ️", 0x94a3b8⟩)) ∧
    (∀ p : WebhookPayload,
      (p.data.status = some "failed" →
        getEventPresentation p = ⟨humanizeEventType p.type ++ " Failed", "❌", 0xef4444⟩) ∧
      (p.data.status = some "canceled" →
        getEventPresentation p = ⟨humanizeEventType p.type ++ " Canceled", "⚠️", 0xf59e0b⟩) ∧
      (p.data.status = some "succeeded" →
        getEventPresentation p = ⟨humanizeEventType p.type ++ " Succeeded", "✅", 0x22c55e⟩)) ∧
    humanizeEventType "deploy_started" = "Deploy Started" ∧
    (∀ p : WebhookPayload, p.type = "deploy_started" → p.data.status = none →
      getEventPresentation p = ⟨"Deploy Started", "⏳", 0x94a3b8⟩) := by
  refine ⟨fun p hs => ?_, fun p => ?_, by decide, fun p ht hs => ?_⟩
  · rw [getEventPresentation_eq_table p hs]
    exact ⟨eventTypeTable_failure p.type, eventTypeTable_warning p.type,
      eventTypeTable_started p.type, eventTypeTable_ended p.type,
      fun h => by rw [h]; decide, fun h => by rw [h]; decide,
      eventTypeTable_unknown p.type⟩
  · refine ⟨fun hs => ?_, fun hs => ?_, fun hs => ?_⟩ <;>
      simp [getEventPresentation, hs, optStrTruthy] <;>
      (intro he; exact absurd he (by decide))
  · rw [getEventPresentation_eq_table p hs, ht]
    decide

/-- **C2** (witness): a statusless `deploy_started` payload presents as
`Deploy Started` with ⏳ and color `0x94a3b8`. -/
theorem getEventPresentation_table_spec_witness :
    getEventPresentation { type := "deploy_started" } = ⟨"Deploy Started", "⏳", 0x94a3b8⟩ :=
  getEventPresentation_table_spec.2.2.2 { type := "deploy_started" } rfl rfl

/-- **C8**: `formatEventDescription` delegates to the failure-reason
formatter on `event?.details?.reason` for `server_failed` payloads and
yields the empty string for every other payload type. -/
theorem formatEventDescription_spec (payload : WebhookPayload) (event : Option RenderEvent) :
    (payload.type = "server_failed" →
      formatEventDescription payload event =
        formatFailureReason ((event.bind RenderEvent.details).bind EventDetails.reason)) ∧
    (payload.type ≠ "server_failed" → formatEventDescription payload event = "") := by
  constructor <;> intro h <;> simp [formatEventDescription, h]

/-- **C8** (witness): a `deploy_started` payload yields the empty
description, and a `server_failed` payload with an OOM reason delegates to
the failure formatter. -/
theorem formatEventDescription_spec_witness :
    formatEventDescription { type := "deploy_started" } none = "" :=
  (formatEventDescription_spec { type := "deploy_started" } none).2 (by decide)

/-- **C7** (counterexample).  The claim says the title's name is the first
*present* value in the chain serviceName → service.name → serviceId →
fallback; the code takes the first JS-*truthy* value, so a present but
empty `serviceName` is skipped in favour of the fetched service's name. -/
theorem formatEventTitle_first_present_cex :
    formatEventTitle
        { type := "deploy_started", data := { serviceId := "srv-123", serviceName := some "" } }
        (some { name := "api-server" }) ⟨"Deploy Started", "⏳", 0x94a3b8⟩ =
      "⏳ api-server — Deploy Started" ∧
    "⏳ api-server — Deploy Started" ≠ "⏳  — Deploy Started" := by
  decide

/-- **C7** (amended).  The title is
`"{emoji} {name} — {label}"` where `name` is the first JS-truthy (present
and nonempty) value in the chain: the payload's `serviceName`, else the
fetched service's `name`, else the payload's `serviceId`, else the
fallback `"Render Service"`. -/
theorem formatEventTitle_name_chain (payload : WebhookPayload)
    (service : Option RenderService) (presentation : EventPresentation) :
    (∀ s, payload.data.serviceName = some s → s ≠ "" →
      formatEventTitle payload service presentation =
        presentation.emoji ++ " " ++ s ++ " — " ++ presentation.label) ∧
    (optStrTruthy payload.data.serviceName = false →
      ∀ sv, service = some sv → sv.name ≠ "" →
      formatEventTitle payload service presentation =
        presentation.emoji ++ " " ++ sv.name ++ " — " ++ presentation.label) ∧
    (optStrTruthy payload.data.serviceName = false →
      optStrTruthy (service.map RenderService.name) = false →
      payload.data.serviceId ≠ "" →
      formatEventTitle payload service presentation =
        presentation.emoji ++ " " ++ payload.data.serviceId ++ " — " ++ presentation.label) ∧
    (optStrTruthy payload.data.serviceName = false →
      optStrTruthy (service.map RenderService.name) = false →
      payload.data.serviceId = "" →
      formatEventTitle payload service presentation =
        presentation.emoji ++ " " ++ "Render Service" ++ " — " ++ presentation.label) := by
  refine ⟨?_, ?_, ?_, ?_⟩
  · intro s hsn hne
    simp [formatEventTitle, jsOr, hsn, optStrTruthy_some_of_ne s hne]
  · intro h1 sv hsv hne
    simp [formatEventTitle, jsOr, h1, hsv, optStrTruthy_some_of_ne sv.name hne]
  · intro h1 h2 hne
    simp [formatEventTitle, jsOr, h1, h2, optStrTruthy_some_of_ne _ hne]
  · intro h1 h2 he
    have h3 : optStrTruthy (some "") = false := by decide
    simp [formatEventTitle, jsOr, h1, h2, he, h3]

/-- **C7** (witness): a payload with truthy `serviceName` uses it as the
display name. -/
theorem formatEventTitle_name_chain_witness :
    formatEventTitle { type := "deploy_started", data := { serviceName := some "my-app" } }
        none ⟨"Deploy Started", "⏳", 0x94a3b8⟩ =
      "⏳" ++ " " ++ "my-app" ++ " — " ++ "Deploy Started" :=
  (formatEventTitle_name_chain
    { type := "deploy_started", data := { serviceName := some "my-app" } }
    none ⟨"Deploy Started", "⏳", 0x94a3b8⟩).1 "my-app" rfl (by decide)

/-- **C10**: a present status other than `failed`, `canceled`, `succeeded`
(for example `pending`) skips the override branch, so the presentation
equals the one computed for the same payload with status absent. -/
theorem getEventPresentation_status_fallthrough (p : WebhookPayload) (s : String)
    (hs : p.data.status = some s)
    (h1 : s ≠ "failed") (h2 : s ≠ "canceled") (h3 : s ≠ "succeeded") :
    getEventPresentation p =
      getEventPresentation { p with data := { p.data with status := none } } := by
  by_cases he : s = ""
  · subst he
    simp [getEventPresentation, hs, optStrTruthy]
  · simp [getEventPresentation, hs, optStrTruthy, isEmpty_false_of_ne s he, h1, h2, h3]

/-- **C10** (witness): `deploy_ended` with status `pending` presents
exactly as `deploy_ended` with no status. -/
theorem getEventPresentation_status_fallthrough_witness :
    getEventPresentation { type := "deploy_ended", data := { status := some "pending" } } =
      getEventPresentation { type := "deploy_ended", data := { status := none } } :=
  getEventPresentation_status_fallthrough
    { type := "deploy_ended", data := { status := some "pending" } } "pending"
    rfl (by decide) (by decide) (by decide)

/-- **C1**: the request handler returns exactly the checkpoint table's
status, checked in order — path ≠ `/webhook` → 404; method ≠ POST → 405;
missing required configuration → 500; body read failure → 400;
`WebhookVerificationError` → 400; other verification error → 500; invalid
JSON → 400 — and when every checkpoint passes it schedules the
asynchronous pipeline (the payload is dispatched to `ctx.waitUntil`, the
response not depending on the pipeline's outcome) and returns 200 with
body `{}` and `Content-Type: application/json`. -/
theorem fetchHandler_checkpoints (request : InboundRequest) (env : Env) :
    (request.pathname ≠ "/webhook" →
      fetchHandler request env = ⟨⟨404, "Not Found", false⟩, none⟩) ∧
    (request.pathname = "/webhook" → request.method ≠ "POST" →
      fetchHandler request env = ⟨⟨405, "Method Not Allowed", false⟩, none⟩) ∧
    (request.pathname = "/webhook" → request.method = "POST" →
      getMissingEnvVars env ≠ [] →
      fetchHandler request env = ⟨⟨500, "", false⟩, none⟩) ∧
    (request.pathname = "/webhook" → request.method = "POST" →
      getMissingEnvVars env = [] → request.bodyRead = none →
      fetchHandler request env = ⟨⟨400, "", false⟩, none⟩) ∧
    (request.pathname = "/webhook" → request.method = "POST" →
      getMissingEnvVars env = [] → ∀ b, request.bodyRead = some b →
      request.verifyResult = .verificationError →
      fetchHandler request env = ⟨⟨400, "", false⟩, none⟩) ∧
    (request.pathname = "/webhook" → request.method = "POST" →
      getMissingEnvVars env = [] → ∀ b, request.bodyRead = some b →
      request.verifyResult = .otherError →
      fetchHandler request env = ⟨⟨500, "", false⟩, none⟩) ∧
    (request.pathname = "/webhook" → request.method = "POST" →
      getMissingEnvVars env = [] → ∀ b, request.bodyRead = some b →
      request.verifyResult = .ok → request.parseResult = none →
      fetchHandler request env = ⟨⟨400, "", false⟩, none⟩) ∧
    (request.pathname = "/webhook" → request.method = "POST" →
      getMissingEnvVars env = [] → ∀ b, request.bodyRead = some b →
      request.verifyResult = .ok → ∀ payload, request.parseResult = some payload →
      fetchHandler request env = ⟨⟨200, "{}", true⟩, some payload⟩) := by
  refine ⟨?_, ?_, ?_, ?_, ?_, ?_, ?_, ?_⟩
  · intro h
    simp [fetchHandler, h]
  · intro h1 h2
    simp [fetchHandler, h1, h2]
  · intro h1 h2 h3
    have h4 : (getMissingEnvVars env).length > 0 := List.length_pos.mpr h3
    simp [fetchHandler, h1, h2, h4]
  · intro h1 h2 h3 h4
    simp [fetchHandler, h1, h2, h3, h4]
  · intro h1 h2 h3 b h4 h5
    simp [fetchHandler, h1, h2, h3, h4, h5]
  · intro h1 h2 h3 b h4 h5
    simp [fetchHandler, h1, h2, h3, h4, h5]
  · intro h1 h2 h3 b h4 h5 h6
    simp [fetchHandler, h1, h2, h3, h4, h5, h6]
  · intro h1 h2 h3 b h4 h5 payload h6
    simp [fetchHandler, h1, h2, h3, h4, h5, h6]

/-- **C1** (witness): a well-formed request against a complete
configuration is acknowledged with `200 {}` and dispatches its payload. -/
theorem fetchHandler_checkpoints_witness :
    fetchHandler
        { pathname := "/webhook", method := "POST", bodyRead := some "{}",
          verifyResult := .ok, parseResult := some { type := "deploy_started" } }
        { RENDER_WEBHOOK_SECRET := "s", RENDER_API_KEY := "k",
          DISCORD_TOKEN := "t", DISCORD_CHANNEL_ID := "c" } =
      ⟨⟨200, "{}", true⟩, some { type := "deploy_started" }⟩ :=
  (fetchHandler_checkpoints
    { pathname := "/webhook", method := "POST", bodyRead := some "{}",
      verifyResult := .ok, parseResult := some { type := "deploy_started" } }
    { RENDER_WEBHOOK_SECRET := "s", RENDER_API_KEY := "k",
      DISCORD_TOKEN := "t", DISCORD_CHANNEL_ID := "c" }).2.2.2.2.2.2.2
    rfl rfl (by decide) "{}" rfl rfl { type := "deploy_started" } rfl

/-- **C5** (counterexample).  The claim says every rejected request has an
empty body; the 404 rejection carries the body `"Not Found"` (and the 405
carries `"Method Not Allowed"`). -/
theorem response_bodies_cex :
    (fetchHandler { pathname := "/nope", method := "POST" } {}).response.status = 404 ∧
    (fetchHandler { pathname := "/nope", method := "POST" } {}).response.body = "Not Found" ∧
    "Not Found" ≠ "" := by
  decide

/-- **C5** (amended).  The 400 and 500 rejections have empty bodies; the
404 and 405 rejections carry the fixed plain-text bodies `"Not Found"` and
`"Method Not Allowed"`; only the accepted 200 response carries the body
`{}` (with the JSON content type), and only it dispatches the pipeline. -/
theorem response_bodies (request : InboundRequest) (env : Env) :
    ((fetchHandler request env).response.status = 400 ∨
        (fetchHandler request env).response.status = 500 →
      (fetchHandler request env).response.body = "") ∧
    ((fetchHandler request env).response.status = 404 →
      (fetchHandler request env).response.body = "Not Found") ∧
    ((fetchHandler request env).response.status = 405 →
      (fetchHandler request env).response.body = "Method Not Allowed") ∧
    ((fetchHandler request env).response.status = 200 →
      (fetchHandler request env).response.body = "{}" ∧
      (fetchHandler request env).response.contentTypeJson = true) ∧
    ((fetchHandler request env).dispatched ≠ none →
      (fetchHandler request env).response.status = 200) := by
  obtain ⟨pn, m, br, vr, pr⟩ := request
  by_cases h1 : pn = "/webhook" <;> by_cases h2 : m = "POST" <;>
    rcases br with _ | b <;> rcases vr <;> rcases pr with _ | pl <;>
    by_cases h3 : (getMissingEnvVars env).length > 0 <;>
    simp_all [fetchHandler]

/-- **C5** (witness): a signature-rejected request has status 400 and an
empty body. -/
theorem response_bodies_witness :
    (fetchHandler
        { pathname := "/webhook", method := "POST", bodyRead := some "x",
          verifyResult := .verificationError }
        { RENDER_WEBHOOK_SECRET := "s", RENDER_API_KEY := "k",
          DISCORD_TOKEN := "t", DISCORD_CHANNEL_ID := "c" }).response.body = "" :=
  (response_bodies
    { pathname := "/webhook", method := "POST", bodyRead := some "x",
      verifyResult := .verificationError }
    { RENDER_WEBHOOK_SECRET := "s", RENDER_API_KEY := "k",
      DISCORD_TOKEN := "t", DISCORD_CHANNEL_ID := "c" }).1 (by decide)

/-- A send oracle that always succeeds, for concrete pipeline runs. -/
def notifyAlwaysOk : WebhookPayload → Option RenderService → Option RenderEvent → Except String Unit :=
  fun _ _ _ => Except.ok ()

/-- The trace of one concrete pipeline run (empty on an escaped error). -/
def pipelineTraceOf (r : Except String PipelineRun) : List Step :=
  match r with
  | .ok run => run.trace
  | .error _ => []

/-- The step trace every pipeline run produces: the six events of the
three sequential `await`s in program order. -/
def fullPipelineTrace : List Step :=
  [Step.fetchServiceStart, Step.fetchServiceDone, Step.fetchEventStart,
   Step.fetchEventDone, Step.notifyStart, Step.notifyDone]

lemma handleWebhook_eq (payload : WebhookPayload)
    (fs : Except String RenderService) (fe : Except String RenderEvent)
    (send : WebhookPayload → Option RenderService → Option RenderEvent → Except String Unit) :
    handleWebhook payload fs fe send = Except.ok
      { trace := fullPipelineTrace,
        service := fs.toOption,
        event := fe.toOption,
        notifyArgs := (payload, fs.toOption, fe.toOption),
        notifyFailed := match send payload fs.toOption fe.toOption with
          | .ok _ => false
          | .error _ => true } := by
  rcases fs with s | e1 <;> rcases fe with s2 | e2 <;> rfl

/-- **C4** (counterexample).  The claim says the service fetch and the
event fetch run concurrently, with two network calls in flight at once.
In `handleWebhook` the two fetches are separate sequential `await`s: on
this concrete run the event fetch starts only after the service fetch has
completed, so the two calls are never simultaneously in flight. -/
theorem handleWebhook_concurrent_cex :
    overlappingFetches (pipelineTraceOf (handleWebhook { type := "deploy_started" }
      (Except.ok { name := "api-server" }) (Except.ok {}) notifyAlwaysOk)) = false := by
  decide

/-- **C4** (amended).  Within one request's pipeline the two fetches run
sequentially: every run completes the service fetch before the event fetch
starts (so the two calls are never in flight at once), and both fetches
complete before the notification send starts. -/
theorem handleWebhook_fetches_sequential (payload : WebhookPayload)
    (fetchServiceInfo : Except String RenderService)
    (fetchEventInfo : Except String RenderEvent)
    (sendEventMessage : WebhookPayload → Option RenderService → Option RenderEvent → Except String Unit) :
    ∃ run, handleWebhook payload fetchServiceInfo fetchEventInfo sendEventMessage = Except.ok run ∧
      run.trace = [Step.fetchServiceStart, Step.fetchServiceDone, Step.fetchEventStart,
        Step.fetchEventDone, Step.notifyStart, Step.notifyDone] ∧
      overlappingFetches run.trace = false ∧
      stepBefore Step.fetchServiceDone Step.fetchEventStart run.trace = true ∧
      stepBefore Step.fetchEventDone Step.notifyStart run.trace = true := by
  refine ⟨_, handleWebhook_eq payload fetchServiceInfo fetchEventInfo sendEventMessage,
    rfl, ?_, ?_, ?_⟩
  · show overlappingFetches fullPipelineTrace = false
    decide
  · show stepBefore Step.fetchServiceDone Step.fetchEventStart fullPipelineTrace = true
    decide
  · show stepBefore Step.fetchEventDone Step.notifyStart fullPipelineTrace = true
    decide

/-- **C6**: every run of the pipeline returns without an escaped
exception, whatever the three step outcomes: a failed fetch is replaced by
`none` without preventing the other fetch, `sendEventMessage` is always
invoked with the (possibly partial) data, and a notify failure is caught
as well. -/
theorem handleWebhook_error_isolation (payload : WebhookPayload)
    (fetchServiceInfo : Except String RenderService)
    (fetchEventInfo : Except String RenderEvent)
    (sendEventMessage : WebhookPayload → Option RenderService → Option RenderEvent → Except String Unit) :
    ∃ run, handleWebhook payload fetchServiceInfo fetchEventInfo sendEventMessage = Except.ok run ∧
      run.service = fetchServiceInfo.toOption ∧
      run.event = fetchEventInfo.toOption ∧
      Step.fetchEventStart ∈ run.trace ∧
      Step.notifyStart ∈ run.trace ∧
      run.notifyArgs = (payload, fetchServiceInfo.toOption, fetchEventInfo.toOption) := by
  refine ⟨_, handleWebhook_eq payload fetchServiceInfo fetchEventInfo sendEventMessage,
    rfl, rfl, ?_, ?_, rfl⟩
  · show Step.fetchEventStart ∈ fullPipelineTrace
    simp [fullPipelineTrace]
  · show Step.notifyStart ∈ fullPipelineTrace
    simp [fullPipelineTrace]

/-- The trigger component of `buildEventFields`, as it appears in
`buildEventFields_eq`. -/
def triggerFieldsOf (t : Option (List TriggerEntry)) : List Field :=
  match t with
  | some trig =>
    if formatTrigger trig ≠ "" then [⟨"Trigger", formatTrigger trig, false⟩] else []
  | none => []

lemma buildEventFields_eq (fmtTs : String → String) (payload : WebhookPayload)
    (service : Option RenderService) (event : Option RenderEvent) :
    buildEventFields fmtTs payload service event =
      (if timestampText payload ≠ "" then
        [⟨"Time", fmtTs (timestampText payload), false⟩] else []) ++
      (if optStrTruthy payload.data.status then
        [⟨"Status", humanizeStatus (payload.data.status.getD ""), true⟩] else []) ++
      (if optStrTruthy (jsOr ((event.bind RenderEvent.details).bind EventDetails.deployId)
          (((event.bind RenderEvent.details).bind EventDetails.deploy).map Deploy.id)) then
        [⟨"Deploy ID",
          (jsOr ((event.bind RenderEvent.details).bind EventDetails.deployId)
            (((event.bind RenderEvent.details).bind EventDetails.deploy).map Deploy.id)).getD "",
          false⟩] else []) ++
      triggerFieldsOf ((event.bind RenderEvent.details).bind EventDetails.trigger) ++
      (if payload.type = "server_failed" then
        [⟨"Failure Reason",
          formatFailureReason ((event.bind RenderEvent.details).bind EventDetails.reason),
          false⟩] else []) :=
  rfl

lemma mem_ite_singleton {c : Prop} [Decidable c] {x f : Field}
    (h : f ∈ (if c then [x] else ([] : List Field))) : c ∧ f = x := by
  by_cases hc : c
  · rw [if_pos hc] at h
    exact ⟨hc, List.mem_singleton.mp h⟩
  · rw [if_neg hc] at h
    exact absurd h (List.not_mem_nil f)

lemma map_ite_singleton_sublist (c : Prop) [Decidable c] (x : Field) :
    List.Sublist ((if c then [x] else ([] : List Field)).map Field.name) [x.name] := by
  by_cases hc : c
  · rw [if_pos hc]
    exact List.Sublist.refl _
  · rw [if_neg hc]
    exact List.nil_sublist _

lemma mem_triggerFieldsOf {t : Option (List TriggerEntry)} {f : Field}
    (h : f ∈ triggerFieldsOf t) :
    ∃ trig, t = some trig ∧ formatTrigger trig ≠ "" ∧ f = ⟨"Trigger", formatTrigger trig, false⟩ := by
  rcases t with _ | trig
  · exact absurd h (List.not_mem_nil f)
  · obtain ⟨hc, rfl⟩ := mem_ite_singleton h
    exact ⟨trig, rfl, hc, rfl⟩

lemma triggerFieldsOf_names_sublist (t : Option (List TriggerEntry)) :
    List.Sublist ((triggerFieldsOf t).map Field.name) ["Trigger"] := by
  rcases t with _ | trig
  · exact List.nil_sublist _
  · exact map_ite_singleton_sublist _ ⟨"Trigger", formatTrigger trig, false⟩

lemma truncate_length_le (s : String) (n : Nat) (h3 : 3 ≤ n) : (truncate s n).length ≤ n := by
  unfold truncate
  split
  · next h => exact h
  · next h =>
    rw [String.length_append]
    have h1 : (String.mk (s.data.take (n - 3))).length = (s.data.take (n - 3)).length := rfl
    have h2 : ("..." : String).length = 3 := rfl
    rw [h1, h2, List.length_take]
    have := Nat.min_le_left (n - 3) s.data.length
    omega

lemma formatTrigger_length_le (trig : List TriggerEntry) :
    (formatTrigger trig).length ≤ 1024 :=
  truncate_length_le _ 1024 (by norm_num)

/-- **C9**: `buildEventFields` emits fields in the fixed order Time,
Status, Deploy ID, Trigger, Failure Reason; each emitted field carries the
value computed from its data — Time the formatted truthy timestamp, Status
the capitalized present status, Deploy ID the first truthy of the details'
`deployId` and the nested `deploy.id`, Trigger the comma-joined `key=value`
rendering truncated to at most 1024 characters, Failure Reason (emitted
exactly for `server_failed` payloads) the formatted failure reason — and of
all emitted fields only Status has `inline` set to `true`. -/
theorem buildEventFields_spec (fmtTs : String → String) (payload : WebhookPayload)
    (service : Option RenderService) (event : Option RenderEvent) :
    List.Sublist ((buildEventFields fmtTs payload service event).map Field.name)
      ["Time", "Status", "Deploy ID", "Trigger", "Failure Reason"] ∧
    (∀ f ∈ buildEventFields fmtTs payload service event,
      (f.name = "Time" →
        timestampText payload ≠ "" ∧ f.value = fmtTs (timestampText payload)) ∧
      (f.name = "Status" → ∃ s, payload.data.status = some s ∧ s ≠ "" ∧
        f.value = humanizeStatus s) ∧
      (f.name = "Deploy ID" →
        optStrTruthy (jsOr ((event.bind RenderEvent.details).bind EventDetails.deployId)
          (((event.bind RenderEvent.details).bind EventDetails.deploy).map Deploy.id)) = true ∧
        f.value = (jsOr ((event.bind RenderEvent.details).bind EventDetails.deployId)
          (((event.bind RenderEvent.details).bind EventDetails.deploy).map Deploy.id)).getD "") ∧
      (f.name = "Trigger" → ∃ trig,
        (event.bind RenderEvent.details).bind EventDetails.trigger = some trig ∧
        f.value = formatTrigger trig ∧ f.value.length ≤ 1024) ∧
      (f.name = "Failure Reason" → payload.type = "server_failed" ∧
        f.value = formatFailureReason ((event.bind RenderEvent.details).bind EventDetails.reason)) ∧
      (f.inline = true ↔ f.name = "Status")) ∧
    (payload.type = "server_failed" →
      "Failure Reason" ∈ (buildEventFields fmtTs payload service event).map Field.name) ∧
    (optStrTruthy payload.data.status = true →
      "Status" ∈ (buildEventFields fmtTs payload service event).map Field.name) ∧
    (timestampText payload ≠ "" →
      "Time" ∈ (buildEventFields fmtTs payload service event).map Field.name) := by
  refine ⟨?_, ?_, ?_, ?_, ?_⟩
  · rw [buildEventFields_eq, List.map_append, List.map_append, List.map_append, List.map_append]
    exact List.Sublist.append
      (List.Sublist.append
        (List.Sublist.append
          (List.Sublist.append
            (map_ite_singleton_sublist _ ⟨"Time", fmtTs (timestampText payload), false⟩)
            (map_ite_singleton_sublist _
              ⟨"Status", humanizeStatus (payload.data.status.getD ""), true⟩))
          (map_ite_singleton_sublist _
            ⟨"Deploy ID",
              (jsOr ((event.bind RenderEvent.details).bind EventDetails.deployId)
                (((event.bind RenderEvent.details).bind EventDetails.deploy).map Deploy.id)).getD "",
              false⟩))
        (triggerFieldsOf_names_sublist _))
      (map_ite_singleton_sublist _
        ⟨"Failure Reason",
          formatFailureReason ((event.bind RenderEvent.details).bind EventDetails.reason), false⟩)
  · intro f hf
    rw [buildEventFields_eq] at hf
    simp only [List.mem_append] at hf
    rcases hf with ((((hf | hf) | hf) | hf) | hf)
    · obtain ⟨hc, rfl⟩ := mem_ite_singleton hf
      exact ⟨fun _ => ⟨hc, rfl⟩, fun hn => by simp at hn, fun hn => by simp at hn,
        fun hn => by simp at hn, fun hn => by simp at hn, by simp⟩
    · obtain ⟨hc, rfl⟩ := mem_ite_singleton hf
      rcases hst : payload.data.status with _ | s
      · rw [hst] at hc
        exact absurd hc (by decide)
      · rw [hst] at hc
        refine ⟨fun hn => by simp at hn,
          fun _ => ⟨s, rfl, (optStrTruthy_some_iff s).mp hc, rfl⟩,
          fun hn => by simp at hn, fun hn => by simp at hn, fun hn => by simp at hn, by simp⟩
    · obtain ⟨hc, rfl⟩ := mem_ite_singleton hf
      exact ⟨fun hn => by simp at hn, fun hn => by simp at hn, fun _ => ⟨hc, rfl⟩,
        fun hn => by simp at hn, fun hn => by simp at hn, by simp⟩
    · obtain ⟨trig, htr, hne, rfl⟩ := mem_triggerFieldsOf hf
      exact ⟨fun hn => by simp at hn, fun hn => by simp at hn, fun hn => by simp at hn,
        fun _ => ⟨trig, htr, rfl, formatTrigger_length_le trig⟩,
        fun hn => by simp at hn, by simp⟩
    · obtain ⟨hc, rfl⟩ := mem_ite_singleton hf
      exact ⟨fun hn => by simp at hn, fun hn => by simp at hn, fun hn => by simp at hn,
        fun hn => by simp at hn, fun _ => ⟨hc, rfl⟩, by simp⟩
  · intro h
    rw [buildEventFields_eq]
    simp [List.map_append, List.mem_append, h]
  · intro h
    rw [buildEventFields_eq]
    simp [List.map_append, List.mem_append, h]
  · intro h
    rw [buildEventFields_eq]
    simp [List.map_append, List.mem_append, h]

/-- **C9** (witness): a `server_failed` payload's field list contains the
Failure Reason field. -/
theorem buildEventFields_spec_witness :
    "Failure Reason" ∈ (buildEventFields id
      { type := "server_failed", timestamp := some (.str "2024-01-01"),
        data := { status := some "failed" } } none none).map Field.name :=
  (buildEventFields_spec id
    { type := "server_failed", timestamp := some (.str "2024-01-01"),
      data := { status := some "failed" } } none none).2.2.1 rfl

end WebhookBot
